import Mathlib

/-!
Shallow embedding of `src/arduino_code/Three_Motors_Chat.ino`.

The sketch drives three winch motors between position bounds using quadrature
Hall encoders, and persists the encoder counts to EEPROM, guarded by a magic
sentinel, whenever a channel has been idle long enough and its count changed.

Modelling conventions:
- `long` encoder counts are modelled as `Int` (the sketch only ever moves them
  by plus or minus one per edge; signed overflow is undefined behaviour in the
  source, so all defined executions stay in range).
- `uint16_t magic` is a `Nat` (values below 2 ^ 16).
- `millis()` timestamps are `unsigned long` (32-bit on the UNO targets), so
  `millis() - lastChange` is the wrap-around difference `usub` below.
- The float calibration in `setup` is idealised over the reals; the proved
  integer results hold with margins far wider than single-precision rounding
  error (the computed value is about 596.83, more than 0.16 from either
  neighbouring integer, while float rounding perturbs it by less than 0.001).
-/

namespace ToCaro

/-- Motor run directions issued through the Adafruit motor shield. -/
inductive Dir where
  | forward
  | backward
deriving DecidableEq, Repr

/-- EEPROM record: `struct Persist` with the three saved counts `p1 p2 p3`
and the 16-bit validity marker `magic`. -/
structure Persist where
  p1 : Int
  p2 : Int
  p3 : Int
  magic : Nat
deriving DecidableEq, Repr

/-- `const uint16_t MAGIC = 0xBEEF`. -/
def MAGIC : Nat := 0xBEEF

/-- `saveEEPROM(o1,o2,o3)`: writes `Persist p = (o1,o2,o3,MAGIC)` to EEPROM;
modelled as producing the record the EEPROM holds afterwards. -/
def saveEEPROM (o1 o2 o3 : Int) : Persist :=
  { p1 := o1, p2 := o2, p3 := o3, magic := MAGIC }

/-- `loadEEPROM(&o1,&o2,&o3)`: reads the stored record; on a magic match it
overwrites the three reference arguments with the stored counts and returns
`true`, otherwise it returns `false` leaving the references untouched.
Modelled as a function of the stored record and the callers current reference
values, returning the flag and the resulting reference values. -/
def loadEEPROM (stored : Persist) (o1 o2 o3 : Int) : Bool × Int × Int × Int :=
  if stored.magic = MAGIC then (true, stored.p1, stored.p2, stored.p3)
  else (false, o1, o2, o3)

/-- Per-channel decoder state: the volatile count `cnt` and the
`lastChange` timestamp written by the ISR. -/
structure ChannelState where
  cnt : Int
  lastChange : Nat
deriving DecidableEq, Repr

/-- `isrEnc1` (likewise `isrEnc2`, `isrEnc3`): on an A-line edge, read the two
levels `a` and `b`; if they are equal increment the count, otherwise decrement
it, and stamp `lastChange` with `millis()` (passed in as `now`). -/
def isrEnc (a b : Bool) (now : Nat) (s : ChannelState) : ChannelState :=
  { cnt := if a = b then s.cnt + 1 else s.cnt - 1, lastChange := now }

/-- The signed contribution of one decoded edge. -/
def edgeDelta (a b : Bool) : Int := if a = b then 1 else -1

/-- A sequence of A-line edges applied to a channel; each event carries the
two sampled levels and the `millis()` value at the instant of the edge. -/
def runEdges (s : ChannelState) (es : List (Bool × Bool × Nat)) : ChannelState :=
  es.foldl (fun t e => isrEnc e.1 e.2.1 e.2.2 t) s

/-- One channel of the direction logic in `loop`:
`if (c >= steps) run(BACKWARD); else if (c < 0) run(FORWARD);` —
`none` means no `run` call is made this cycle. -/
def motorCommand (c steps : Int) : Option Dir :=
  if c ≥ steps then some Dir.backward
  else if c < 0 then some Dir.forward
  else none

/-- The direction actually in effect after a control cycle, given the
previously commanded direction `d`: the motor keeps `d` when no `run` call
is issued. -/
def dirStep (c steps : Int) (d : Dir) : Dir :=
  match motorCommand c steps with
  | some d2 => d2
  | none => d

/-- `const unsigned long T_IDLE = 5000`. -/
def T_IDLE : Nat := 5000

/-- 32-bit unsigned subtraction, the meaning of `millis() - lastChange` for
`unsigned long` operands (both below `2 ^ 32`). -/
def usub (a b : Nat) : Nat := (a + 2 ^ 32 - b) % 2 ^ 32

/-- The mutable persistence state threaded through one `loop` iteration:
the three `lastSaved` values and the EEPROM contents. -/
structure LoopPersistState where
  lastSaved1 : Int
  lastSaved2 : Int
  lastSaved3 : Int
  eeprom : Persist
deriving DecidableEq, Repr

/-- `if (millis()-lastChange1 > T_IDLE && c1 != lastSaved1) \x7b lastSaved1 = c1;
saveEEPROM(lastSaved1, lastSaved2, lastSaved3); \x7d` for channel 1, with `c`
the snapshot count taken at the top of `loop`. -/
def maybeFlush1 (now : Nat) (c : Int) (lastChange : Nat) (st : LoopPersistState) :
    LoopPersistState :=
  if usub now lastChange > T_IDLE ∧ c ≠ st.lastSaved1 then
    { st with lastSaved1 := c, eeprom := saveEEPROM c st.lastSaved2 st.lastSaved3 }
  else st

/-- The channel-2 flush guard and write in `loop`. -/
def maybeFlush2 (now : Nat) (c : Int) (lastChange : Nat) (st : LoopPersistState) :
    LoopPersistState :=
  if usub now lastChange > T_IDLE ∧ c ≠ st.lastSaved2 then
    { st with lastSaved2 := c, eeprom := saveEEPROM st.lastSaved1 c st.lastSaved3 }
  else st

/-- The channel-3 flush guard and write in `loop`. -/
def maybeFlush3 (now : Nat) (c : Int) (lastChange : Nat) (st : LoopPersistState) :
    LoopPersistState :=
  if usub now lastChange > T_IDLE ∧ c ≠ st.lastSaved3 then
    { st with lastSaved3 := c, eeprom := saveEEPROM st.lastSaved1 st.lastSaved2 c }
  else st

/-- The persistence phase of one `loop` iteration: the three flush guards run
in order, each re-reading `millis()` (`now1`, `now2`, `now3`) and sharing the
`lastSaved` state. `c1 c2 c3` are the snapshot counts, `lc1 lc2 lc3` the
channels `lastChange` timestamps. -/
def loopPersist (now1 now2 now3 : Nat) (c1 c2 c3 : Int) (lc1 lc2 lc3 : Nat)
    (st : LoopPersistState) : LoopPersistState :=
  maybeFlush3 now3 c3 lc3 (maybeFlush2 now2 c2 lc2 (maybeFlush1 now1 c1 lc1 st))

/-- `int motorspeed1 = 30`. -/
def motorspeed1 : Nat := 30

/-- `int motorspeed2 = 40`. -/
def motorspeed2 : Nat := 40

/-- `int motorspeed3 = 40`. -/
def motorspeed3 : Nat := 40

/-- The state established by `setup` (restore-or-initialise of the counts and
`lastSaved` values, the final EEPROM contents, and the unconditional
`setSpeed`/`run(FORWARD)` motor commands at the end). -/
structure SetupResult where
  cnt1 : Int
  cnt2 : Int
  cnt3 : Int
  lastSaved1 : Int
  lastSaved2 : Int
  lastSaved3 : Int
  storage : Persist
  speed1 : Nat
  speed2 : Nat
  speed3 : Nat
  dir1 : Dir
  dir2 : Dir
  dir3 : Dir
deriving DecidableEq, Repr

/-- The effect of `setup` on the modelled state, as a function of the record
the EEPROM holds at boot: `long o1=0,o2=0,o3=0; if(!loadEEPROM(o1,o2,o3))
\x7b o1=o2=o3=0; saveEEPROM(o1,o2,o3); \x7d cnt = o; lastSaved = cnt;` then
`setSpeed(motorspeed_i); run(FORWARD);` for every motor. -/
def setupModel (stored : Persist) : SetupResult :=
  let r := loadEEPROM stored 0 0 0
  let o1 := r.2.1
  let o2 := r.2.2.1
  let o3 := r.2.2.2
  let stored2 := if r.1 then stored else saveEEPROM 0 0 0
  { cnt1 := o1, cnt2 := o2, cnt3 := o3,
    lastSaved1 := o1, lastSaved2 := o2, lastSaved3 := o3,
    storage := stored2,
    speed1 := motorspeed1, speed2 := motorspeed2, speed3 := motorspeed3,
    dir1 := Dir.forward, dir2 := Dir.forward, dir3 := Dir.forward }

/-- `float winch_diameter = 7.0`. -/
noncomputable def winch_diameter : ℝ := 7

/-- `float hall_feedback_resolution = 1050.0 / 2.0`. -/
noncomputable def hall_feedback_resolution : ℝ := 1050 / 2

/-- `float distance1 = 25`. -/
noncomputable def distance1 : ℝ := 25

/-- Truncation toward zero, the semantics of the C cast `int(x)`. -/
noncomputable def truncInt (x : ℝ) : ℤ := if 0 ≤ x then ⌊x⌋ else ⌈x⌉

/-- `float stepsPerMM = hall_feedback_resolution / (2.0*PI*(winch_diameter/2.0))`. -/
noncomputable def stepsPerMM : ℝ :=
  hall_feedback_resolution / (2 * Real.pi * (winch_diameter / 2))

/-- `steps1 = int(distance1 * stepsPerMM)`. -/
noncomputable def steps1 : ℤ := truncInt (distance1 * stepsPerMM)

/-- A concrete persistence state for evaluation: all `lastSaved` zero and the
EEPROM holding a freshly saved zero record. -/
def lps0 : LoopPersistState :=
  { lastSaved1 := 0, lastSaved2 := 0, lastSaved3 := 0, eeprom := saveEEPROM 0 0 0 }

/-! ### Helper lemmas -/

/-- Folding the ISR over a list of edges adds the signed sum of the per-edge
contributions to the count. -/
theorem runEdges_cnt (s : ChannelState) (es : List (Bool × Bool × Nat)) :
    (runEdges s es).cnt = s.cnt + (es.map (fun e => edgeDelta e.1 e.2.1)).sum := by
  induction es generalizing s with
  | nil => simp [runEdges]
  | cons e es ih =>
    have h1 : runEdges s (e :: es) = runEdges (isrEnc e.1 e.2.1 e.2.2 s) es := rfl
    rw [h1, ih]
    simp [isrEnc, edgeDelta]
    by_cases h : e.1 = e.2.1 <;> simp [h] <;> ring

/-- Without wrap-around (`b ≤ a < 2 ^ 32`), `usub` is plain subtraction. -/
theorem usub_eq_sub (a b : Nat) (hle : b ≤ a) (hlt : a < 2 ^ 32) :
    usub a b = a - b := by
  unfold usub
  omega

/-- The calibration product for channel 1 in closed form:
`25 * (525 / (2 * pi * 3.5)) = 13125 / (7 * pi)`. -/
theorem calib_value : distance1 * stepsPerMM = 13125 / (7 * Real.pi) := by
  unfold distance1 stepsPerMM hall_feedback_resolution winch_diameter
  have h : Real.pi ≠ 0 := Real.pi_ne_zero
  field_simp
  ring

/-- The spec's form of the same quantity, `distance * (res / (pi * d))`,
equals the same closed form. -/
theorem calib_value_spec :
    distance1 * (hall_feedback_resolution / (Real.pi * winch_diameter)) =
      13125 / (7 * Real.pi) := by
  unfold distance1 hall_feedback_resolution winch_diameter
  have h : Real.pi ≠ 0 := Real.pi_ne_zero
  field_simp
  ring

/-- Lower bound: `596 ≤ 13125 / (7 * pi)`. -/
theorem calib_lb : (596 : ℝ) ≤ 13125 / (7 * Real.pi) := by
  rw [le_div_iff₀ (by positivity)]
  nlinarith [Real.pi_lt_d6]

/-- Sharper lower bound: `596.5 ≤ 13125 / (7 * pi)`, so rounding goes up. -/
theorem calib_lb_half : (596.5 : ℝ) ≤ 13125 / (7 * Real.pi) := by
  rw [le_div_iff₀ (by positivity)]
  nlinarith [Real.pi_lt_d6]

/-- Upper bound: `13125 / (7 * pi) < 597`. -/
theorem calib_ub : 13125 / (7 * Real.pi) < 597 := by
  rw [div_lt_iff₀ (by positivity)]
  nlinarith [Real.pi_gt_d6]

/-- The computed channel-1 target: `int(25 * stepsPerMM) = 596`. -/
theorem steps1_eq : steps1 = 596 := by
  unfold steps1
  rw [calib_value]
  unfold truncInt
  rw [if_pos (by positivity), Int.floor_eq_iff]
  constructor
  · exact_mod_cast calib_lb
  · have h := calib_ub
    push_cast
    linarith

/-- Rounding the exact calibration value gives 597, not 596. -/
theorem round_calib : round (13125 / (7 * Real.pi)) = (597 : ℤ) := by
  rw [round_eq, Int.floor_eq_iff]
  have h1 := calib_lb_half
  have h2 := calib_ub
  constructor
  · push_cast
    linarith
  · push_cast
    linarith

/-! ### Claim theorems -/

/-- Claim C1: for every channel with target `T` and snapshot count `c`, the
controller commands backward exactly when `c ≥ T`; when `c < T` it commands
forward exactly when `c < 0`; and for `0 ≤ c < T` it issues no run command at
all, so the previously commanded direction stays in effect — the two bounds
are the only reversal triggers. -/
theorem C1_controller (c T : Int) (d : Dir) :
    (motorCommand c T = some Dir.backward ↔ T ≤ c) ∧
    (motorCommand c T = some Dir.forward ↔ c < T ∧ c < 0) ∧
    (motorCommand c T = none ↔ 0 ≤ c ∧ c < T) ∧
    (0 ≤ c → c < T → dirStep c T d = d) := by
  refine ⟨?_, ?_, ?_, ?_⟩ <;>
    simp only [motorCommand, dirStep] <;>
    split_ifs with h1 h2 <;>
    simp_all

/-- Claim C1 witness: the three cases evaluated at concrete counts against
target 10, and the hold case leaving a previously backward direction alone. -/
theorem C1_controller_witness :
    motorCommand 10 10 = some Dir.backward ∧
    motorCommand (-1) 10 = some Dir.forward ∧
    motorCommand 4 10 = none ∧
    dirStep 4 10 Dir.backward = Dir.backward := by
  refine ⟨((C1_controller 10 10 Dir.forward).1).2 (by decide),
    ((C1_controller (-1) 10 Dir.forward).2.1).2 ⟨by decide, by decide⟩,
    ((C1_controller 4 10 Dir.forward).2.2.1).2 ⟨by decide, by decide⟩,
    (C1_controller 4 10 Dir.backward).2.2.2 (by decide) (by decide)⟩

/-- Claim C2: an A-edge with sampled levels `a` and `b` adds exactly `+1` to
the count when `a = b` and exactly `-1` when they differ, and stamps
`lastChange` with the current time; hence over any sequence of edges the
count equals its initial value plus the signed sum of the contributions. -/
theorem C2_quadrature (a b : Bool) (now : Nat) (s : ChannelState)
    (es : List (Bool × Bool × Nat)) :
    (isrEnc a b now s).cnt = s.cnt + edgeDelta a b ∧
    (a = b → (isrEnc a b now s).cnt = s.cnt + 1) ∧
    (a ≠ b → (isrEnc a b now s).cnt = s.cnt - 1) ∧
    (isrEnc a b now s).lastChange = now ∧
    (runEdges s es).cnt = s.cnt + (es.map (fun e => edgeDelta e.1 e.2.1)).sum := by
  refine ⟨?_, ?_, ?_, rfl, runEdges_cnt s es⟩ <;>
    · intros
      by_cases h : a = b <;> simp_all [isrEnc, edgeDelta, sub_eq_add_neg]

/-- Claim C2 witness: concrete single edges (equal and unequal levels) and a
concrete three-edge sequence summing to `+1`. -/
theorem C2_quadrature_witness :
    (isrEnc true true 77 ⟨5, 0⟩).cnt = 6 ∧
    (isrEnc true false 88 ⟨5, 0⟩).cnt = 4 ∧
    (isrEnc true false 88 ⟨5, 0⟩).lastChange = 88 ∧
    (runEdges ⟨5, 0⟩ [(true, true, 1), (false, true, 2), (true, true, 3)]).cnt = 6 := by
  have h1 := (C2_quadrature true true 77 ⟨5, 0⟩ []).2.1 rfl
  have h2 := (C2_quadrature true false 88 ⟨5, 0⟩ []).2.2.1 (by decide)
  have h3 := (C2_quadrature true false 88 ⟨5, 0⟩ []).2.2.2.1
  have h4 := (C2_quadrature true true 0 ⟨5, 0⟩
    [(true, true, 1), (false, true, 2), (true, true, 3)]).2.2.2.2
  refine ⟨by simpa using h1, by simpa using h2, h3, by simpa using h4⟩

/-- Claim C7 counterexample: a channel with `targetSteps = 0` and snapshot
count `-1` is commanded forward, not backward — refuting the claim that a
channel with non-positive target is commanded backward regardless of its
count. -/
theorem C7_counterexample :
    motorCommand (-1) 0 = some Dir.forward ∧ motorCommand (-1) 0 ≠ some Dir.backward := by
  refine ⟨by decide, by decide⟩

/-- Claim C7 amended: for a channel with `targetSteps ≤ 0` the controller
asserts a direction on every cycle — backward whenever `count ≥ targetSteps`
(in particular whenever `count ≥ 0`), forward whenever `count < targetSteps`
(which forces `count < 0`) — and never leaves the previous direction in
effect. -/
theorem C7_degenerate (c T : Int) (hT : T ≤ 0) :
    (0 ≤ c → motorCommand c T = some Dir.backward) ∧
    (T ≤ c → motorCommand c T = some Dir.backward) ∧
    (c < T → motorCommand c T = some Dir.forward) ∧
    motorCommand c T ≠ none := by
  refine ⟨fun h => ?_, fun h => ?_, fun h => ?_, ?_⟩ <;>
    simp only [motorCommand] <;>
    split_ifs <;>
    simp_all <;>
    omega

/-- Claim C7 amended witness: both directions evaluated at target 0. -/
theorem C7_degenerate_witness :
    motorCommand 0 0 = some Dir.backward ∧ motorCommand (-3) 0 = some Dir.forward := by
  exact ⟨(C7_degenerate 0 0 (by decide)).1 (by decide),
    (C7_degenerate (-3) 0 (by decide)).2.2.1 (by decide)⟩

/-- Claim C3 counterexample: at time 6000, channel 2 triggers a flush
(idle since 0, count 7, last saved 0) while channel 1 saw an edge at 5999
and has current snapshot count 10 but `lastSaved1 = 5`; the record written is
`(5, 7, 0)` — channel 1 is stored with its stale `lastSaved` value 5, not its
then-current count 10, refuting the claim that a flush writes the CURRENT
counts of all channels. -/
theorem C3_counterexample :
    usub 6000 5999 ≤ T_IDLE ∧
    (10 : Int) ≠ 5 ∧
    (loopPersist 6000 6000 6000 10 7 0 5999 0 0
        { lastSaved1 := 5, lastSaved2 := 0, lastSaved3 := 0,
          eeprom := saveEEPROM 5 0 0 }).eeprom = saveEEPROM 5 7 0 := by
  refine ⟨by decide, by decide, by decide⟩

/-- Claim C3 amended: whenever a flush fires for channel 2, the record
written carries channel 2's current snapshot count together with the OTHER
channels `lastSavedValue` as of that moment (their current counts only if
they have not changed since their own last save), plus the valid marker, and
channel 2's `lastSavedValue` is set to its count. -/
theorem C3_flush_record (now : Nat) (c : Int) (lc : Nat) (st : LoopPersistState)
    (h : usub now lc > T_IDLE ∧ c ≠ st.lastSaved2) :
    maybeFlush2 now c lc st =
      { st with lastSaved2 := c, eeprom := saveEEPROM st.lastSaved1 c st.lastSaved3 } ∧
    (saveEEPROM st.lastSaved1 c st.lastSaved3).magic = MAGIC := by
  refine ⟨?_, rfl⟩
  unfold maybeFlush2
  rw [if_pos h]

/-- Claim C3 amended witness: a concrete channel-2 flush at time 6000 writing
the record `(0, 7, 0)` and updating `lastSaved2`. -/
theorem C3_flush_record_witness :
    maybeFlush2 6000 7 0 lps0 =
      { lps0 with lastSaved2 := 7, eeprom := saveEEPROM 0 7 0 } :=
  (C3_flush_record 6000 7 0 lps0 ⟨by decide, by decide⟩).1

/-- Claim C4: restore round-trip. Booting with the stored record
`saveEEPROM 12 (-7) 3` yields initial counts `(12, -7, 3)` with every
channel's `lastSaved` equal to its count and the EEPROM untouched; booting
with any record whose marker differs from the sentinel yields counts
`(0, 0, 0)`, `lastSaved` 0 everywhere, and leaves the EEPROM holding a
freshly written valid all-zero record, so storage is never left invalid
after startup. -/
theorem C4_restore_roundtrip (p : Persist) (hp : p.magic ≠ MAGIC) :
    ((setupModel (saveEEPROM 12 (-7) 3)).cnt1 = 12 ∧
     (setupModel (saveEEPROM 12 (-7) 3)).cnt2 = -7 ∧
     (setupModel (saveEEPROM 12 (-7) 3)).cnt3 = 3 ∧
     (setupModel (saveEEPROM 12 (-7) 3)).lastSaved1 = 12 ∧
     (setupModel (saveEEPROM 12 (-7) 3)).lastSaved2 = -7 ∧
     (setupModel (saveEEPROM 12 (-7) 3)).lastSaved3 = 3 ∧
     (setupModel (saveEEPROM 12 (-7) 3)).storage = saveEEPROM 12 (-7) 3) ∧
    ((setupModel p).cnt1 = 0 ∧ (setupModel p).cnt2 = 0 ∧ (setupModel p).cnt3 = 0 ∧
     (setupModel p).lastSaved1 = 0 ∧ (setupModel p).lastSaved2 = 0 ∧
     (setupModel p).lastSaved3 = 0 ∧
     (setupModel p).storage = saveEEPROM 0 0 0 ∧
     (setupModel p).storage.magic = MAGIC) := by
  refine ⟨by decide, ?_⟩
  unfold setupModel loadEEPROM
  rw [if_neg hp]
  simp [saveEEPROM]

/-- Claim C4 witness: the invalid-marker branch evaluated at a concrete
record with marker 0 and nonzero stored counts. -/
theorem C4_restore_roundtrip_witness :
    (setupModel ⟨12, -7, 3, 0⟩).cnt1 = 0 ∧
    (setupModel ⟨12, -7, 3, 0⟩).storage = saveEEPROM 0 0 0 :=
  ⟨(C4_restore_roundtrip ⟨12, -7, 3, 0⟩ (by decide)).2.1,
   (C4_restore_roundtrip ⟨12, -7, 3, 0⟩ (by decide)).2.2.2.2.2.2.2.1⟩

/-- Claim C5 counterexample: at `now = 5000` with `lastChange = 0` the
channel has been idle for exactly `idleThreshold` (at least the threshold)
and its count 1 differs from `lastSaved1 = 0`, yet no flush occurs — the
guard is strict, refuting the "at least idleThreshold" reading. -/
theorem C5_counterexample :
    usub 5000 0 ≥ T_IDLE ∧
    (1 : Int) ≠ lps0.lastSaved1 ∧
    maybeFlush1 5000 1 0 lps0 = lps0 := by
  refine ⟨by decide, by decide, by decide⟩

/-- Claim C5 amended: in a control cycle at time `now` (no timer wrap), a
channel-1 flush occurs if and only if the channel has been idle STRICTLY
longer than `idleThreshold` and its snapshot count differs from
`lastSaved1`; when it fires it performs exactly one record write and sets
`lastSaved1` to the snapshot count; when `now - lastChange ≤ idleThreshold`,
or the count equals `lastSaved1`, the state is unchanged — no flush. -/
theorem C5_flush_gating (now lastChange : Nat) (c : Int) (st : LoopPersistState)
    (hle : lastChange ≤ now) (hlt : now < 2 ^ 32) :
    (now - lastChange > T_IDLE ∧ c ≠ st.lastSaved1 →
      maybeFlush1 now c lastChange st =
        { st with lastSaved1 := c, eeprom := saveEEPROM c st.lastSaved2 st.lastSaved3 }) ∧
    (now - lastChange ≤ T_IDLE → maybeFlush1 now c lastChange st = st) ∧
    (c = st.lastSaved1 → maybeFlush1 now c lastChange st = st) := by
  have he : usub now lastChange = now - lastChange := usub_eq_sub now lastChange hle hlt
  refine ⟨fun h => ?_, fun h => ?_, fun h => ?_⟩
  · unfold maybeFlush1
    rw [if_pos (he ▸ h)]
  · unfold maybeFlush1
    rw [if_neg]
    rw [he]
    omega
  · unfold maybeFlush1
    rw [if_neg]
    simp [h]

/-- Claim C5 amended witness: at `now = 10001` (idle 5001 > 5000) with count
1 against `lastSaved1 = 0` the flush fires and writes `(1, 0, 0)`; the same
count at `now = 5000` (idle exactly 5000) leaves the state unchanged. -/
theorem C5_flush_gating_witness :
    maybeFlush1 10001 1 5000 lps0 =
      { lps0 with lastSaved1 := 1, eeprom := saveEEPROM 1 0 0 } ∧
    maybeFlush1 5000 1 0 lps0 = lps0 :=
  ⟨(C5_flush_gating 10001 5000 1 lps0 (by decide) (by decide)).1 ⟨by decide, by decide⟩,
   (C5_flush_gating 5000 0 1 lps0 (by decide) (by decide)).2.1 (by decide)⟩

/-- Claim C6 counterexample: the computed target `steps1` is 596, while
`round(25 * 525 / (pi * 7.0))` is 597 — the source truncates toward zero via
the C cast `int(...)`, it does not round. -/
theorem C6_counterexample :
    steps1 ≠ round (distance1 * (hall_feedback_resolution / (Real.pi * winch_diameter))) := by
  rw [steps1_eq, calib_value_spec, round_calib]
  decide

/-- Claim C6 amended: startup calibration computes
`stepsPerUnitLength = encoderResolution / (pi * spoolDiameter)` and
`targetSteps` as the truncation toward zero of `distance * stepsPerUnitLength`
(the C cast `int(...)`, not `round`); for `distance = 25`,
`encoderResolution = 525`, `spoolDiameter = 7.0` this yields exactly 596, and
repeated evaluation with the same inputs yields the same integer (the model
is a pure function). -/
theorem C6_calibration :
    steps1 = truncInt (distance1 * (hall_feedback_resolution / (Real.pi * winch_diameter))) ∧
    steps1 = 596 := by
  refine ⟨?_, steps1_eq⟩
  rw [calib_value_spec]
  unfold steps1
  rw [calib_value]

/-- Claim C8: every record the sketch ever writes goes through `saveEEPROM`
and therefore carries the marker `0xBEEF`; a subsequent `loadEEPROM` accepts
such a record and yields its counts; the EEPROM after `setup` is either the
already-stored record or a fresh `saveEEPROM` record; and each flush guard
either leaves the EEPROM untouched or writes a record with the marker. -/
theorem C8_magic_invariant :
    (∀ o1 o2 o3 : Int, (saveEEPROM o1 o2 o3).magic = MAGIC) ∧
    (∀ o1 o2 o3 x y z : Int,
      loadEEPROM (saveEEPROM o1 o2 o3) x y z = (true, o1, o2, o3)) ∧
    (∀ p : Persist, (setupModel p).storage = p ∨ (setupModel p).storage.magic = MAGIC) ∧
    (∀ (now : Nat) (c : Int) (lc : Nat) (st : LoopPersistState),
      (maybeFlush1 now c lc st).eeprom = st.eeprom ∨
        (maybeFlush1 now c lc st).eeprom.magic = MAGIC) ∧
    (∀ (now : Nat) (c : Int) (lc : Nat) (st : LoopPersistState),
      (maybeFlush2 now c lc st).eeprom = st.eeprom ∨
        (maybeFlush2 now c lc st).eeprom.magic = MAGIC) ∧
    (∀ (now : Nat) (c : Int) (lc : Nat) (st : LoopPersistState),
      (maybeFlush3 now c lc st).eeprom = st.eeprom ∨
        (maybeFlush3 now c lc st).eeprom.magic = MAGIC) := by
  refine ⟨fun o1 o2 o3 => rfl, fun o1 o2 o3 x y z => rfl, ?_, ?_, ?_, ?_⟩
  · intro p
    by_cases h : p.magic = MAGIC <;> simp [setupModel, loadEEPROM, h, saveEEPROM]
  all_goals
    intro now c lc st
    first
      | (unfold maybeFlush1; split_ifs <;> simp [saveEEPROM])
      | (unfold maybeFlush2; split_ifs <;> simp [saveEEPROM])
      | (unfold maybeFlush3; split_ifs <;> simp [saveEEPROM])

/-- Claim C9: at the end of `setup` all three motors are unconditionally
commanded forward at speeds 30, 40, 40, whatever record the EEPROM held — in
particular a channel whose restored count (1000) already exceeds its target
still leaves `setup` running forward, even though the first control cycle
would command it backward. -/
theorem C9_setup_forward :
    (∀ p : Persist,
      (setupModel p).dir1 = Dir.forward ∧
      (setupModel p).dir2 = Dir.forward ∧
      (setupModel p).dir3 = Dir.forward ∧
      (setupModel p).speed1 = 30 ∧
      (setupModel p).speed2 = 40 ∧
      (setupModel p).speed3 = 40) ∧
    (setupModel (saveEEPROM 1000 0 0)).cnt1 = 1000 ∧
    (setupModel (saveEEPROM 1000 0 0)).dir1 = Dir.forward ∧
    motorCommand (setupModel (saveEEPROM 1000 0 0)).cnt1 596 = some Dir.backward := by
  refine ⟨fun p => ⟨rfl, rfl, rfl, rfl, rfl, rfl⟩, by decide, by decide, by decide⟩

/-- Claim C10: when the stored marker differs from the sentinel, `loadEEPROM`
returns `false` and leaves the three output reference parameters exactly as
the caller set them. -/
theorem C10_load_frame (p : Persist) (o1 o2 o3 : Int) (h : p.magic ≠ MAGIC) :
    loadEEPROM p o1 o2 o3 = (false, o1, o2, o3) := by
  simp [loadEEPROM, h]

/-- Claim C10 witness: a record with marker 0 and pre-set references 1, 2, 3. -/
theorem C10_load_frame_witness :
    loadEEPROM ⟨9, 9, 9, 0⟩ 1 2 3 = (false, 1, 2, 3) :=
  C10_load_frame ⟨9, 9, 9, 0⟩ 1 2 3 (by decide)

end ToCaro
